import Mathlib

/-!
Shallow embedding of the recent-follower-delta core of the rafflegram
repository (src/live_orientation_picker.py and
src/instagram_social_follower_picker.py).

Python dictionaries with optional keys are modelled with `Option` fields and
`Option.getD`, mirroring `dict.get(key, default)`. Timestamps are integers
(seconds). HTTP calls are modelled by passing their outcome in explicitly
as an inductive value; the functions below translate what the Python code
does with each outcome.
-/

namespace Rafflegram

/-- One follower item as returned by the provider: a dictionary whose keys are
all optional. `username` is the handle, `pk` the opaque numeric id the
provider also sends (`rawId` in the specification's data model). -/
structure FollowerRecord where
  username : Option String
  full_name : Option String
  is_private : Option Bool
  is_verified : Option Bool
  pk : Option String
deriving Repr, DecidableEq

/-- `follower.get('username', '')` — the handle with the empty string as
default (live_orientation_picker.py lines 254 and 260). -/
def handleOf (r : FollowerRecord) : String := r.username.getD ""

/-- Python's `str.lower()` as the code applies it to handles (lines 256 and
261): lower-case each character (handles are basic-latin). -/
def lowerStr (s : String) : String := ⟨s.data.map Char.toLower⟩

/-- A persisted snapshot file in `live_snapshots/`. The snapshots this script
writes carry `metadata_only = true` and no `followers` key; snapshots from
other writers may carry a follower list and omit `metadata_only`, hence both
are `Option` fields read with `dict.get` defaults in the code. `time` is the
capture timestamp in seconds (the code stores an ISO datetime plus an epoch
number; one integer stands for both, and for the second-resolution timestamp
in the file name). -/
structure Snapshot where
  time : Int
  follower_count : Nat
  metadata_only : Option Bool
  followers : Option (List FollowerRecord)
deriving Repr, DecidableEq

/-- Outcome of the HTTP request made by `get_followers`
(live_orientation_picker.py lines 78-93). -/
inductive FetchOutcome where
  | ok (items : List FollowerRecord)
  | badShape
  | httpError (status : Nat)
  | netError
deriving Repr, DecidableEq

/-- `LiveOrientationPicker.get_followers` (lines 68-93): a 200 response with
`data.items` yields the items; any other status, shape or exception prints an
error and returns the empty list. -/
def live_get_followers : FetchOutcome → List FollowerRecord
  | .ok items => items
  | _ => []

/-- The `amount` parameter `find_recent_followers` passes to `get_followers`:
the call at line 215 uses the default `max_followers=400` (line 68). -/
def live_get_followers_amount : Nat := 400

/-- Outcome of the HTTP request made by `get_followers_count`
(live_orientation_picker.py lines 47-66). -/
inductive CountOutcome where
  | okCount (count : Nat)
  | okItems (items : List FollowerRecord)
  | badShape
  | httpError (status : Nat)
  | netError
deriving Repr, DecidableEq

/-- `LiveOrientationPicker.get_followers_count` (lines 37-66): a 200 response
with `data.count` yields the count, a 200 response with only `data.items`
yields their number, anything else yields `None`. -/
def live_get_followers_count : CountOutcome → Option Nat
  | .okCount n => some n
  | .okItems items => some items.length
  | _ => none

/-- Writing the snapshot file `{username}_baseline_{timestamp}.json`
(lines 150 and 161-162): a second write with the same second-resolution
timestamp overwrites the same file, otherwise a new file appears. The store
is the list of this subject's snapshot files. -/
def save_snapshot (store : List Snapshot) (s : Snapshot) : List Snapshot :=
  store.filter (fun t => t.time != s.time) ++ [s]

/-- The metadata-only snapshot dictionary built at lines 152-158 and 190-196:
follower count, `metadata_only: True`, no `followers` key. -/
def count_baseline (now : Int) (count : Nat) : Snapshot :=
  ⟨now, count, some true, none⟩

/-! ### Baseline lookup (get_baseline_snapshot, lines 95-136) -/

/-- Insertion step of a sort by capture time, newest first: the code iterates
`sorted(files, reverse=True)` (line 110) and the file names order by the
second-resolution capture timestamp. -/
def insert_desc (s : Snapshot) : List Snapshot → List Snapshot
  | [] => [s]
  | t :: ts => if t.time ≤ s.time then s :: t :: ts else t :: insert_desc s ts

/-- The directory listing sorted newest first (line 110). -/
def sort_desc (l : List Snapshot) : List Snapshot := l.foldr insert_desc []

/-- One iteration of the best-baseline loop (lines 124-128): skip snapshots
from the future; otherwise keep the candidate whose distance to the target
time is strictly smaller than the best so far (`none` models the initial
`best_time_diff = inf`). -/
def scan_step (now target : Int) (acc : Option (Snapshot × Int)) (s : Snapshot) :
    Option (Snapshot × Int) :=
  if s.time ≤ now then
    let d := |s.time - target|
    match acc with
    | none => some (s, d)
    | some (b, bd) => if d < bd then some (s, d) else some (b, bd)
  else acc

/-- The best-baseline loop over the sorted file list (lines 107-128). -/
def scan_snapshots (now target : Int) : List Snapshot → Option (Snapshot × Int) →
    Option (Snapshot × Int)
  | [], acc => acc
  | s :: rest, acc => scan_snapshots now target rest (scan_step now target acc s)

/-- The lookup half of `get_baseline_snapshot`: the snapshot the loop at lines
107-132 selects, `none` when no stored snapshot qualifies. -/
def find_closest (store : List Snapshot) (now target : Int) : Option Snapshot :=
  (scan_snapshots now target (sort_desc store) none).map Prod.fst

/-- `get_baseline_snapshot(username, time_window_hours)` (lines 95-169):
`target = now - window`; return the best stored snapshot when one exists;
otherwise fetch a follower count and, when it is truthy (present and
nonzero, `if current_count:` at line 148), persist a fresh metadata-only
snapshot — and return `None` either way. The second component is the store
after the call. -/
def get_baseline_snapshot (store : List Snapshot) (now window : Int)
    (countFetch : CountOutcome) : Option Snapshot × List Snapshot :=
  match find_closest store now (now - window) with
  | some s => (some s, store)
  | none =>
      match live_get_followers_count countFetch with
      | some n => if n ≠ 0 then (none, save_snapshot store (count_baseline now n)) else (none, store)
      | none => (none, store)

/-! ### Delta calculation (find_recent_followers, lines 171-277) -/

/-- `growth = current_count - baseline_count` of the metadata-only branch
(lines 223-234), with `current_count = len(current_followers)` (line 224). -/
def metadata_growth (baseline : Snapshot) (current : List FollowerRecord) : Int :=
  (current.length : Int) - (baseline.follower_count : Int)

/-- The metadata-only branch (lines 234-249): no growth means no candidates;
positive growth means the first `growth` records of the current fetch. -/
def metadata_delta (baseline : Snapshot) (current : List FollowerRecord) :
    List FollowerRecord :=
  if metadata_growth baseline current ≤ 0 then []
  else current.take (metadata_growth baseline current).toNat

/-- The set of lower-cased baseline handles (lines 252-256): records without
a (nonempty) `username` contribute nothing. -/
def baseline_usernames (baseline : Snapshot) : List String :=
  (baseline.followers.getD []).filterMap fun f =>
    if handleOf f = "" then none else some (lowerStr (handleOf f))

/-- The full-identity branch (lines 258-262): keep each current record whose
handle is nonempty and whose lower-cased handle is not a baseline handle. -/
def full_delta (baseline : Snapshot) (current : List FollowerRecord) :
    List FollowerRecord :=
  current.filter fun f =>
    handleOf f != "" && !((baseline_usernames baseline).contains (lowerStr (handleOf f)))

/-- The body of `find_recent_followers` after a baseline is resolved and the
current fetch result is in hand (lines 216-277): an empty fetch returns the
empty list (line 216-218); a `metadata_only` baseline takes the count branch
(line 221); otherwise the full-identity branch runs. -/
def delta_from_baseline (baseline : Snapshot) (current : List FollowerRecord) :
    List FollowerRecord :=
  if current.isEmpty then []
  else if baseline.metadata_only.getD false then metadata_delta baseline current
  else full_delta baseline current

/-- True exactly when `find_recent_followers` takes the metadata-only
assumption branch and emits the `Assuming last N followers are new` note
(line 243): the returned candidates are inferred from count growth, not
computed from identity comparison. -/
def assumed_from_count_only (baseline : Snapshot) (current : List FollowerRecord) : Bool :=
  !current.isEmpty && baseline.metadata_only.getD false
    && decide (0 < metadata_growth baseline current)

/-- `find_recent_followers(username, time_window_hours)` (lines 171-277),
with every HTTP outcome passed in: resolve a baseline (which may itself save
a snapshot); when none is usable, fetch a count a second time at `now2` and,
when truthy, save a second metadata-only snapshot (lines 178-212), returning
the empty list; when a baseline exists, fetch the current followers and diff.
Returns the candidate list and the store after the call. -/
def find_recent_followers (store : List Snapshot) (now window : Int)
    (countFetch : CountOutcome) (now2 : Int) (fallbackCountFetch : CountOutcome)
    (currentFetch : FetchOutcome) : List FollowerRecord × List Snapshot :=
  let res := get_baseline_snapshot store now window countFetch
  match res.1 with
  | some baseline => (delta_from_baseline baseline (live_get_followers currentFetch), res.2)
  | none =>
      match live_get_followers_count fallbackCountFetch with
      | some n =>
          if n ≠ 0 then ([], save_snapshot res.2 (count_baseline now2 n)) else ([], res.2)
      | none => ([], res.2)

/-! ### Winner selection -/

/-- The error `select_random_winner` raises on an empty candidate list
(instagram_social_follower_picker.py line 138). -/
inductive PickError where
  | emptyFollowers
deriving Repr, DecidableEq

/-- `random.choice(seq)`: one element of a nonempty sequence, at an index
below its length drawn from the caller-supplied entropy. -/
def random_choice (entropy : Nat) (x : FollowerRecord) (xs : List FollowerRecord) :
    FollowerRecord :=
  (x :: xs).get ⟨entropy % (xs.length + 1), Nat.mod_lt entropy (Nat.succ_pos xs.length)⟩

/-- `InstagramSocialFollowerPicker.select_random_winner` (lines 127-141):
raises on an empty list, otherwise `random.choice`. -/
def select_random_winner (entropy : Nat) (followers : List FollowerRecord) :
    Except PickError FollowerRecord :=
  match followers with
  | [] => .error .emptyFollowers
  | x :: xs => .ok (random_choice entropy x xs)

/-- `LiveOrientationPicker.select_winner` (lines 279-308): returns `None` on
an empty list (lines 281-287), otherwise `random.choice`. -/
def select_winner (entropy : Nat) (new_followers : List FollowerRecord) :
    Option FollowerRecord :=
  match new_followers with
  | [] => none
  | x :: xs => some (random_choice entropy x xs)

/-! ### Startup configuration -/

/-- The configuration failure `LiveOrientationPicker.__init__` raises when
`RAPIDAPI_KEY` is absent (live_orientation_picker.py lines 24-26). -/
inductive ConfigError where
  | missingApiKey
deriving Repr, DecidableEq

/-- The picker object once constructed: it carries the credential. -/
structure LivePicker where
  api_key : String
deriving Repr, DecidableEq

/-- `LiveOrientationPicker.__init__` (lines 22-32): read `RAPIDAPI_KEY` from
the environment and raise at construction when it is unset or empty
(`if not self.api_key`). -/
def live_picker_init (env_rapidapi_key : Option String) : Except ConfigError LivePicker :=
  match env_rapidapi_key with
  | none => .error .missingApiKey
  | some k => if k = "" then .error .missingApiKey else .ok ⟨k⟩

/-- Python's `str.strip()` as `main` applies it to the prompted key
(line 234): drop leading and trailing whitespace. -/
def stripStr (s : String) : String :=
  ⟨((s.data.dropWhile Char.isWhitespace).reverse.dropWhile Char.isWhitespace).reverse⟩

/-- Credential resolution in `instagram_social_follower_picker.main`
(lines 229-238): take the environment key when truthy, else the stripped
prompt answer; `none` models `sys.exit(1)` before any API call. -/
def social_startup_api_key (env_key : Option String) (prompted : String) :
    Option String :=
  if env_key.getD "" ≠ "" then some (env_key.getD "")
  else if stripStr prompted ≠ "" then some (stripStr prompted)
  else none

/-! ### Specification-side definition used to compare against the code
(claim C1's wording only; the code above is the authority) -/

/-- Modelled from the spec wording of C1: the comparison key is the handle,
case-insensitively, falling back to `rawId` when the handle is absent. -/
def spec_compare_key (r : FollowerRecord) : String :=
  match r.username with
  | some u => lowerStr u
  | none => r.pk.getD ""

/-- Modelled from the spec wording of C1: the baseline key set. -/
def spec_baseline_keys (baseline : Snapshot) : List String :=
  (baseline.followers.getD []).map spec_compare_key

/-- Modelled from the spec wording of C1: exactly those current records whose
comparison key is not among the baseline keys, in fetch order. -/
def spec_new_followers (baseline : Snapshot) (current : List FollowerRecord) :
    List FollowerRecord :=
  current.filter fun r => !(spec_baseline_keys baseline).contains (spec_compare_key r)

/-! ### Concrete records and snapshots used at concrete inputs -/

/-- A provider record with no `username` but a numeric id. -/
def recNoHandle : FollowerRecord := ⟨none, none, none, none, some "1234567"⟩

/-- A full-fidelity baseline with an empty follower list. -/
def emptyFullSnap : Snapshot := ⟨0, 0, none, some []⟩

/-- A resolvable Full baseline with two named followers. -/
def fullSnapAB : Snapshot :=
  ⟨100, 2, none, some [⟨some "alice", none, none, none, none⟩,
    ⟨some "bob", none, none, none, none⟩]⟩

/-! ### Shared helper lemmas -/

/-- Positive growth forces a nonempty current fetch. -/
theorem metadata_growth_pos_ne_nil (baseline : Snapshot) (current : List FollowerRecord)
    (hg : 0 < metadata_growth baseline current) : current ≠ [] := by
  intro h
  rw [h] at hg
  unfold metadata_growth at hg
  simp at hg
  omega

/-- Under a metadata-only baseline with positive growth, the delta is the
first `growth` records of the current fetch. -/
theorem delta_metadata_pos (baseline : Snapshot) (current : List FollowerRecord)
    (hmeta : baseline.metadata_only.getD false = true)
    (hg : 0 < metadata_growth baseline current) :
    delta_from_baseline baseline current =
      current.take (metadata_growth baseline current).toNat := by
  have hne : current ≠ [] := metadata_growth_pos_ne_nil baseline current hg
  have hne' : current.isEmpty = false := by
    cases current with
    | nil => exact absurd rfl hne
    | cons x xs => rfl
  unfold delta_from_baseline metadata_delta
  rw [hne', hmeta]
  simp [not_le.mpr hg]

/-- Under a baseline routed to the full-identity branch, the delta is the
filter of the current fetch by nonempty handle plus baseline-set absence. -/
theorem delta_full_eq_filter (baseline : Snapshot) (current : List FollowerRecord)
    (hfull : baseline.metadata_only.getD false = false) :
    delta_from_baseline baseline current = current.filter (fun r =>
      handleOf r != "" && !((baseline_usernames baseline).contains (lowerStr (handleOf r)))) := by
  unfold delta_from_baseline
  cases current with
  | nil => rfl
  | cons x xs =>
    rw [hfull]
    rfl

/-! ### C1 -/

/-- C1 (counterexample): the code never falls back to `rawId`. With a Full
baseline holding no followers and one current record that has an id but no
handle, the claim's key comparison would report that record as new, but the
delta drops every record without a nonempty handle and returns nothing. -/
theorem full_delta_rawid_cex :
    delta_from_baseline emptyFullSnap [recNoHandle] = []
    ∧ spec_new_followers emptyFullSnap [recNoHandle] = [recNoHandle]
    ∧ delta_from_baseline emptyFullSnap [recNoHandle]
        ≠ spec_new_followers emptyFullSnap [recNoHandle] := by
  refine ⟨rfl, rfl, by decide⟩

/-- C1 (amended): for every Full-fidelity baseline (no `metadata_only` flag
set) and every current fetch, the delta returns exactly those current records
that have a nonempty handle whose lower-cased form is not among the baseline's
lower-cased handles; records with an absent or empty handle are dropped, and
`rawId` is never consulted; order follows the current fetch. -/
theorem full_delta_filter_characterization (baseline : Snapshot)
    (current : List FollowerRecord)
    (hfull : baseline.metadata_only.getD false = false) :
    delta_from_baseline baseline current = current.filter (fun r =>
        handleOf r != "" && !((baseline_usernames baseline).contains (lowerStr (handleOf r))))
    ∧ (delta_from_baseline baseline current).Sublist current
    ∧ ∀ r, r ∈ delta_from_baseline baseline current ↔
        (r ∈ current ∧ handleOf r ≠ ""
          ∧ lowerStr (handleOf r) ∉ baseline_usernames baseline) := by
  have h := delta_full_eq_filter baseline current hfull
  refine ⟨h, ?_, ?_⟩
  · rw [h]; exact List.filter_sublist current
  · intro r
    rw [h, List.mem_filter]
    simp [List.contains, List.elem_iff]

/-- C1 (witness): a concrete Full baseline and current fetch where the
characterization evaluates: the baseline holds alice, the current fetch is
alice then carol, and carol alone is returned. -/
theorem full_delta_filter_characterization_witness :
    delta_from_baseline ⟨0, 1, none, some [⟨some "Alice", none, none, none, none⟩]⟩
        [⟨some "alice", none, none, none, none⟩, ⟨some "carol", none, none, none, none⟩]
      = [⟨some "carol", none, none, none, none⟩] := by
  have h := full_delta_filter_characterization
    ⟨0, 1, none, some [⟨some "Alice", none, none, none, none⟩]⟩
    [⟨some "alice", none, none, none, none⟩, ⟨some "carol", none, none, none, none⟩] rfl
  rw [h.1]
  decide

/-! ### C2 -/

/-- C2 (confirmed): for a metadata-only baseline with strictly positive growth
(current fetched count minus baseline count), the delta is exactly the first
`growth` records of the current fetch in provider order, and the run takes the
assumption branch that labels the result as inferred from counts. -/
theorem count_only_growth_takes_head (baseline : Snapshot) (current : List FollowerRecord)
    (hmeta : baseline.metadata_only.getD false = true)
    (hg : 0 < metadata_growth baseline current) :
    delta_from_baseline baseline current =
      current.take (metadata_growth baseline current).toNat
    ∧ assumed_from_count_only baseline current = true := by
  refine ⟨delta_metadata_pos baseline current hmeta hg, ?_⟩
  have hne : current ≠ [] := metadata_growth_pos_ne_nil baseline current hg
  have hne' : current.isEmpty = false := by
    cases current with
    | nil => exact absurd rfl hne
    | cons x xs => rfl
  unfold assumed_from_count_only
  rw [hne', hmeta]
  simp [hg]

/-- C2 (witness): baseline count 1, current fetch of two records, growth 1:
the first record is returned and the assumption branch is taken. -/
theorem count_only_growth_takes_head_witness :
    delta_from_baseline (count_baseline 0 1)
        [⟨some "x", none, none, none, none⟩, ⟨some "y", none, none, none, none⟩]
      = [⟨some "x", none, none, none, none⟩]
    ∧ assumed_from_count_only (count_baseline 0 1)
        [⟨some "x", none, none, none, none⟩, ⟨some "y", none, none, none, none⟩] = true := by
  have h := count_only_growth_takes_head (count_baseline 0 1)
    [⟨some "x", none, none, none, none⟩, ⟨some "y", none, none, none, none⟩]
    rfl (by decide)
  exact ⟨by rw [h.1]; decide, h.2⟩

/-! ### C3 -/

/-- C3 (confirmed): for a metadata-only baseline, when the current fetched
count does not exceed the baseline count, the delta is empty regardless of
what the current fetch contains. -/
theorem count_only_no_growth_empty (baseline : Snapshot) (current : List FollowerRecord)
    (hmeta : baseline.metadata_only.getD false = true)
    (hle : current.length ≤ baseline.follower_count) :
    delta_from_baseline baseline current = [] := by
  unfold delta_from_baseline
  cases hc : current.isEmpty
  · rw [hmeta]
    unfold metadata_delta
    have : metadata_growth baseline current ≤ 0 := by
      unfold metadata_growth
      omega
    simp [this]
  · simp

/-- C3 (witness): baseline count 5, one fetched record: the delta is empty. -/
theorem count_only_no_growth_empty_witness :
    delta_from_baseline (count_baseline 0 5) [⟨some "a", none, none, none, none⟩] = [] :=
  count_only_no_growth_empty (count_baseline 0 5)
    [⟨some "a", none, none, none, none⟩] rfl (by decide)

/-! ### C4 -/

/-- C4 (counterexample): on a first run (empty store) with both follower-count
fetches succeeding with a nonzero count at distinct timestamps, one pipeline
invocation writes snapshots twice — once inside `get_baseline_snapshot`
(lines 145-167) and once more in `find_recent_followers`'s fallback
(lines 178-212) — so the store ends with two snapshots, not exactly one. The
result for the current call is empty. -/
theorem first_run_two_snapshots_cex :
    (find_recent_followers [] 1000 600 (.okCount 5) 1060 (.okCount 5) (.ok [])).2
      = [count_baseline 1000 5, count_baseline 1060 5]
    ∧ (find_recent_followers [] 1000 600 (.okCount 5) 1060 (.okCount 5) (.ok [])).1 = []
    ∧ ((find_recent_followers [] 1000 600 (.okCount 5) 1060 (.okCount 5) (.ok [])).2).length
        ≠ 1 := by
  exact ⟨rfl, rfl, by decide⟩

/-- C4 (amended): when no snapshot exists for the subject and both count
fetches succeed with nonzero counts at distinct second-resolution timestamps,
a single invocation of the pipeline creates exactly two snapshots — the
baseline lookup saves one and the pipeline's fallback saves a second — and
returns the empty candidate list, deferring analysis to a later run. -/
theorem first_run_creates_two_snapshots (now window now2 : Int) (n m : Nat)
    (fo : FetchOutcome) (hn : n ≠ 0) (hm : m ≠ 0) (hne : now ≠ now2) :
    (find_recent_followers [] now window (.okCount n) now2 (.okCount m) fo).1 = []
    ∧ (find_recent_followers [] now window (.okCount n) now2 (.okCount m) fo).2
      = [count_baseline now n, count_baseline now2 m] := by
  have h1 : find_closest [] now (now - window) = none := rfl
  unfold find_recent_followers get_baseline_snapshot
  rw [h1]
  simp [live_get_followers_count, hn, hm, save_snapshot, count_baseline, hne]

/-- C4 (witness): the amended statement at an all-concrete first run. -/
theorem first_run_creates_two_snapshots_witness :
    (find_recent_followers [] 0 1 (.okCount 1) 60 (.okCount 1) (.ok [])).1 = []
    ∧ (find_recent_followers [] 0 1 (.okCount 1) 60 (.okCount 1) (.ok [])).2
      = [count_baseline 0 1, count_baseline 60 1] :=
  first_run_creates_two_snapshots 0 1 60 1 1 (.ok [])
    (by decide) (by decide) (by decide)

/-! ### C6 -/

/-- C6 (counterexample): the orientation picker's `select_winner` does not
fail on an empty candidate list — it returns `None` (lines 281-287) — while
`select_random_winner` does raise. The claim that winner selection fails with
an error on empty input is false for `select_winner`. -/
theorem select_winner_empty_none_cex :
    select_winner 0 [] = none
    ∧ select_random_winner 0 [] = .error .emptyFollowers :=
  ⟨rfl, rfl⟩

/-- C6 (amended): on an empty candidate list `select_random_winner` fails with
the empty-candidates error and `select_winner` returns `None` (no winner is
fabricated in either case); on a nonempty list both return an element of the
list. -/
theorem winner_selection_empty_and_member (entropy : Nat) (l : List FollowerRecord)
    (hne : l ≠ []) :
    select_winner entropy [] = none
    ∧ select_random_winner entropy [] = .error .emptyFollowers
    ∧ (∃ w, select_winner entropy l = some w ∧ w ∈ l)
    ∧ (∃ w, select_random_winner entropy l = .ok w ∧ w ∈ l) := by
  cases l with
  | nil => exact absurd rfl hne
  | cons x xs =>
    refine ⟨rfl, rfl, ⟨random_choice entropy x xs, rfl, ?_⟩,
      ⟨random_choice entropy x xs, rfl, ?_⟩⟩
    all_goals exact (x :: xs).get_mem _ _

/-- C6 (witness): a singleton candidate list with entropy 0. -/
theorem winner_selection_empty_and_member_witness :
    select_winner 0 [] = none
    ∧ select_random_winner 0 [] = .error .emptyFollowers
    ∧ (∃ w, select_winner 0 [⟨some "a", none, none, none, none⟩] = some w
        ∧ w ∈ [(⟨some "a", none, none, none, none⟩ : FollowerRecord)])
    ∧ (∃ w, select_random_winner 0 [⟨some "a", none, none, none, none⟩] = .ok w
        ∧ w ∈ [(⟨some "a", none, none, none, none⟩ : FollowerRecord)]) :=
  winner_selection_empty_and_member 0 [⟨some "a", none, none, none, none⟩] (by decide)

/-! ### C7 -/

/-- C7 (counterexample): a network failure while fetching current followers is
not propagated — `get_followers` returns the empty list (lines 88-93) and the
pipeline then returns the same empty-result success as a genuinely empty
fetch, so the caller cannot distinguish the hard failure from success. -/
theorem fetch_failure_indistinguishable_cex :
    live_get_followers .netError = []
    ∧ (find_recent_followers [fullSnapAB] 200 100 .netError 200 .netError .netError).1 = []
    ∧ find_recent_followers [fullSnapAB] 200 100 .netError 200 .netError .netError
      = find_recent_followers [fullSnapAB] 200 100 .netError 200 .netError (.ok []) :=
  ⟨rfl, rfl, rfl⟩

/-- C7 (amended): every adapter-level failure of the current-follower fetch —
exception, non-200 status, or unrecognized 200 response — is converted by
`get_followers` into the empty list, and the delta calculation then returns an
empty result for any baseline; no error value is propagated to the caller. -/
theorem adapter_failure_becomes_empty (status : Nat) (b : Snapshot) :
    live_get_followers .netError = []
    ∧ live_get_followers (.httpError status) = []
    ∧ live_get_followers .badShape = []
    ∧ delta_from_baseline b (live_get_followers .netError) = []
    ∧ delta_from_baseline b (live_get_followers (.httpError status)) = []
    ∧ delta_from_baseline b (live_get_followers .badShape) = [] :=
  ⟨rfl, rfl, rfl, rfl, rfl, rfl⟩

/-! ### C8 -/

/-- C8 (confirmed): the credential check happens at construction/startup.
`LiveOrientationPicker.__init__` fails exactly when `RAPIDAPI_KEY` is unset or
empty, every successfully constructed picker carries a nonempty credential
(so a missing credential can never surface during a later call, whose
outcomes are modelled independently of the key), and the CLI entry point of
the social picker resolves the key — or exits — before any per-call work. -/
theorem api_key_checked_at_startup (k : String) (hk : k ≠ "") :
    live_picker_init none = .error .missingApiKey
    ∧ live_picker_init (some "") = .error .missingApiKey
    ∧ live_picker_init (some k) = .ok ⟨k⟩
    ∧ (∀ env p, live_picker_init env = .ok p → p.api_key ≠ "")
    ∧ social_startup_api_key none "" = none
    ∧ social_startup_api_key (some "") "" = none
    ∧ social_startup_api_key (some k) "" = some k := by
  refine ⟨rfl, rfl, ?_, ?_, by decide, by decide, ?_⟩
  · simp [live_picker_init, hk]
  · intro env p h
    cases env with
    | none => exact absurd h (by simp [live_picker_init])
    | some s =>
      by_cases hs : s = ""
      · subst hs; exact absurd h (by simp [live_picker_init])
      · simp [live_picker_init, hs] at h
        rw [← h]
        exact hs
  · simp [social_startup_api_key, hk]

/-- C8 (witness): a concrete nonempty key. -/
theorem api_key_checked_at_startup_witness :
    live_picker_init none = .error .missingApiKey
    ∧ live_picker_init (some "") = .error .missingApiKey
    ∧ live_picker_init (some "key123") = .ok ⟨"key123"⟩
    ∧ (∀ env p, live_picker_init env = .ok p → p.api_key ≠ "")
    ∧ social_startup_api_key none "" = none
    ∧ social_startup_api_key (some "") "" = none
    ∧ social_startup_api_key (some "key123") "" = some "key123" :=
  api_key_checked_at_startup "key123" (by decide)

/-! ### C10 -/

/-- C10 (confirmed): a stored baseline without the `metadata_only` flag is
routed through the full-identity branch with its follower list defaulting to
empty; with no follower list every current record with a nonempty handle is
returned as new, and under any full-branch baseline a record with an absent or
empty handle is never returned. -/
theorem full_path_default_handling (b : Snapshot) (current : List FollowerRecord)
    (hflag : b.metadata_only = none) (hfol : b.followers = none) :
    delta_from_baseline b current = current.filter (fun r => handleOf r != "")
    ∧ (∀ r ∈ current, handleOf r ≠ "" → r ∈ delta_from_baseline b current)
    ∧ ∀ (b2 : Snapshot) (c2 : List FollowerRecord) (r : FollowerRecord),
        b2.metadata_only.getD false = false → r ∈ delta_from_baseline b2 c2 →
        handleOf r ≠ "" := by
  have hbase : baseline_usernames b = [] := by
    simp [baseline_usernames, hfol]
  have hfull : b.metadata_only.getD false = false := by rw [hflag]; rfl
  have h := delta_full_eq_filter b current hfull
  rw [hbase] at h
  simp only [List.contains, List.elem_eq_mem, List.not_mem_nil] at h
  have h' : delta_from_baseline b current = current.filter (fun r => handleOf r != "") := by
    rw [h]
    exact List.filter_congr (fun a _ => by simp)
  refine ⟨h', ?_, ?_⟩
  · intro r hr hne
    rw [h', List.mem_filter]
    exact ⟨hr, by simpa using hne⟩
  · intro b2 c2 r hb2 hr
    rw [delta_full_eq_filter b2 c2 hb2, List.mem_filter] at hr
    have := hr.2
    simp only [Bool.and_eq_true, bne_iff_ne] at this
    exact this.1

/-- C10 (witness): a flagless, followerless baseline against a fetch holding
one named record and one record without a handle: only the named one comes
back. -/
theorem full_path_default_handling_witness :
    delta_from_baseline ⟨0, 0, none, none⟩
        [⟨some "a", none, none, none, none⟩, ⟨none, none, none, none, some "9"⟩]
      = [⟨some "a", none, none, none, none⟩] := by
  have h := full_path_default_handling ⟨0, 0, none, none⟩
    [⟨some "a", none, none, none, none⟩, ⟨none, none, none, none, some "9"⟩] rfl rfl
  rw [h.1]
  decide

/-! ### C5: lemmas about the baseline lookup -/

theorem mem_insert_desc {x s : Snapshot} {l : List Snapshot} :
    x ∈ insert_desc s l ↔ x = s ∨ x ∈ l := by
  induction l with
  | nil => simp [insert_desc]
  | cons t ts ih =>
    by_cases h : t.time ≤ s.time
    · simp [insert_desc, h]
    · simp [insert_desc, h, ih]
      tauto

theorem pairwise_insert_desc {s : Snapshot} {l : List Snapshot}
    (h : l.Pairwise (fun a b => b.time ≤ a.time)) :
    (insert_desc s l).Pairwise (fun a b => b.time ≤ a.time) := by
  induction l with
  | nil => simp [insert_desc]
  | cons t ts ih =>
    rw [List.pairwise_cons] at h
    obtain ⟨ht, hts⟩ := h
    by_cases hc : t.time ≤ s.time
    · simp only [insert_desc, if_pos hc]
      refine List.Pairwise.cons ?_ (List.Pairwise.cons ht hts)
      intro b hb
      rcases List.mem_cons.mp hb with rfl | hb
      · exact hc
      · exact le_trans (ht b hb) hc
    · simp only [insert_desc, if_neg hc]
      refine List.Pairwise.cons ?_ (ih hts)
      intro b hb
      rcases mem_insert_desc.mp hb with rfl | hb
      · exact le_of_lt (lt_of_not_le hc)
      · exact ht b hb

theorem mem_sort_desc {x : Snapshot} {l : List Snapshot} : x ∈ sort_desc l ↔ x ∈ l := by
  induction l with
  | nil => simp [sort_desc]
  | cons t ts ih =>
    show x ∈ insert_desc t (sort_desc ts) ↔ _
    rw [mem_insert_desc, ih]
    simp

theorem pairwise_sort_desc (l : List Snapshot) :
    (sort_desc l).Pairwise (fun a b => b.time ≤ a.time) := by
  induction l with
  | nil => exact List.Pairwise.nil
  | cons t ts ih => exact pairwise_insert_desc ih

/-- `scan_step` on a live accumulator yields a live accumulator: either it is
kept as-is, or it is replaced by the strictly closer current snapshot. -/
theorem scan_step_some (now target : Int) (p : Snapshot × Int) (s : Snapshot) :
    ∃ q, scan_step now target (some p) s = some q
      ∧ (q = p ∨ (q.2 < p.2 ∧ q.1 = s ∧ q.2 = |s.time - target| ∧ s.time ≤ now)) := by
  unfold scan_step
  by_cases h : s.time ≤ now
  · obtain ⟨b, bd⟩ := p
    by_cases hd : |s.time - target| < bd
    · exact ⟨(s, |s.time - target|), by simp [h, hd], Or.inr ⟨hd, rfl, rfl, h⟩⟩
    · exact ⟨(b, bd), by simp [h, hd], Or.inl rfl⟩
  · exact ⟨p, by simp [h], Or.inl rfl⟩

theorem scan_step_none_acc (now target : Int) (s : Snapshot) :
    scan_step now target none s
      = if s.time ≤ now then some (s, |s.time - target|) else none := by
  unfold scan_step
  by_cases h : s.time ≤ now <;> simp [h]

theorem scan_step_eq_none (now target : Int) (acc : Option (Snapshot × Int)) (s : Snapshot) :
    scan_step now target acc s = none ↔ acc = none ∧ ¬ s.time ≤ now := by
  cases acc with
  | none =>
    rw [scan_step_none_acc]
    by_cases h : s.time ≤ now <;> simp [h]
  | some p =>
    obtain ⟨q, hq, -⟩ := scan_step_some now target p s
    simp [hq]

/-- The loop returns nothing exactly when it started with nothing and no
scanned snapshot is from the past. -/
theorem scan_snapshots_eq_none (now target : Int) (l : List Snapshot) :
    ∀ acc, scan_snapshots now target l acc = none
      ↔ acc = none ∧ ∀ s ∈ l, ¬ s.time ≤ now := by
  induction l with
  | nil => intro acc; simp [scan_snapshots]
  | cons s rest ih =>
    intro acc
    rw [scan_snapshots, ih, scan_step_eq_none]
    constructor
    · rintro ⟨⟨h1, h2⟩, h3⟩
      refine ⟨h1, ?_⟩
      intro t ht
      rcases List.mem_cons.mp ht with rfl | ht
      · exact h2
      · exact h3 t ht
    · rintro ⟨h1, h2⟩
      exact ⟨⟨h1, h2 s (List.mem_cons_self s rest)⟩,
        fun t ht => h2 t (List.mem_cons_of_mem s ht)⟩

/-- The best distance never increases along the loop. -/
theorem scan_snapshots_diff_le (now target : Int) (l : List Snapshot) :
    ∀ p q, scan_snapshots now target l (some p) = some q → q.2 ≤ p.2 := by
  induction l with
  | nil =>
    intro p q h
    rw [scan_snapshots] at h
    cases h
    exact le_refl _
  | cons s rest ih =>
    intro p q h
    rw [scan_snapshots] at h
    obtain ⟨r, hr, hcase⟩ := scan_step_some now target p s
    rw [hr] at h
    have hq := ih r q h
    rcases hcase with rfl | ⟨hlt, -⟩
    · exact hq
    · exact le_trans hq (le_of_lt hlt)

/-- An update happens only on a strictly smaller distance, so when the final
distance equals the incoming one the incoming candidate survives. -/
theorem scan_snapshots_keep_of_diff_eq (now target : Int) (l : List Snapshot) :
    ∀ p q, scan_snapshots now target l (some p) = some q → q.2 = p.2 → q = p := by
  induction l with
  | nil =>
    intro p q h _
    rw [scan_snapshots] at h
    cases h
    rfl
  | cons s rest ih =>
    intro p q h heq
    rw [scan_snapshots] at h
    obtain ⟨r, hr, hcase⟩ := scan_step_some now target p s
    rw [hr] at h
    rcases hcase with rfl | ⟨hlt, -⟩
    · exact ih r q h heq
    · have := scan_snapshots_diff_le now target rest r q h
      omega

/-- Every live accumulator the loop can produce records a scanned (or initial)
past snapshot together with its distance to the target. -/
theorem scan_snapshots_wf (now target : Int) (m : List Snapshot) :
    ∀ (l : List Snapshot), (∀ s ∈ l, s ∈ m) →
      ∀ acc, (∀ p, acc = some p → p.2 = |p.1.time - target| ∧ p.1.time ≤ now ∧ p.1 ∈ m) →
      ∀ q, scan_snapshots now target l acc = some q →
        q.2 = |q.1.time - target| ∧ q.1.time ≤ now ∧ q.1 ∈ m := by
  intro l
  induction l with
  | nil =>
    intro _ acc hacc q h
    rw [scan_snapshots] at h
    exact hacc q h
  | cons s rest ih =>
    intro hlm acc hacc q h
    rw [scan_snapshots] at h
    refine ih (fun t ht => hlm t (List.mem_cons_of_mem s ht)) _ ?_ q h
    intro p hp
    cases acc with
    | none =>
      rw [scan_step_none_acc] at hp
      by_cases hs : s.time ≤ now
      · rw [if_pos hs] at hp
        cases hp
        exact ⟨rfl, hs, hlm s (List.mem_cons_self s rest)⟩
      · rw [if_neg hs] at hp
        cases hp
    | some p0 =>
      obtain ⟨r, hr, hcase⟩ := scan_step_some now target p0 s
      rw [hr] at hp
      cases hp
      rcases hcase with rfl | ⟨-, h1, h2, h3⟩
      · exact hacc _ rfl
      · exact ⟨by rw [h1, h2], by rw [h1]; exact h3,
          by rw [h1]; exact hlm s (List.mem_cons_self s rest)⟩

/-- The final distance is at most the distance of every scanned past
snapshot. -/
theorem scan_snapshots_min (now target : Int) (l : List Snapshot) :
    ∀ acc q, scan_snapshots now target l acc = some q →
      ∀ t ∈ l, t.time ≤ now → q.2 ≤ |t.time - target| := by
  induction l with
  | nil =>
    intro acc q _ t ht
    cases ht
  | cons s rest ih =>
    intro acc q h t ht hnow
    rw [scan_snapshots] at h
    rcases List.mem_cons.mp ht with rfl | ht'
    · have hstep : ∃ r, scan_step now target acc t = some r ∧ r.2 ≤ |t.time - target| := by
        cases acc with
        | none =>
          rw [scan_step_none_acc, if_pos hnow]
          exact ⟨_, rfl, le_refl _⟩
        | some p =>
          unfold scan_step
          rw [if_pos hnow]
          by_cases hd : |t.time - target| < p.2
          · exact ⟨(t, |t.time - target|), by simp [hd], le_refl _⟩
          · exact ⟨p, by simp [hd], le_of_not_lt hd⟩
      obtain ⟨r, hr, hle⟩ := hstep
      rw [hr] at h
      exact le_trans (scan_snapshots_diff_le now target rest r q h) hle
    · exact ih _ q h t ht' hnow

/-- `scan_step` on a live accumulator and a past snapshot: strictly closer
replaces, otherwise the accumulator is kept. -/
theorem scan_step_eligible (now target : Int) (p0 : Snapshot × Int) (s : Snapshot)
    (hs : s.time ≤ now) :
    (|s.time - target| < p0.2
      ∧ scan_step now target (some p0) s = some (s, |s.time - target|))
    ∨ (p0.2 ≤ |s.time - target| ∧ scan_step now target (some p0) s = some p0) := by
  obtain ⟨b, bd⟩ := p0
  unfold scan_step
  by_cases hd : |s.time - target| < bd
  · exact Or.inl ⟨hd, by simp [hs, hd]⟩
  · exact Or.inr ⟨le_of_not_lt hd, by simp [hs, hd]⟩

/-- Over a newest-first list, among equal minimal distances the loop keeps the
most recently captured snapshot: any scanned past snapshot whose distance
equals the final one is no newer than the final candidate. -/
theorem scan_snapshots_tie (now target : Int) :
    ∀ (l : List Snapshot), l.Pairwise (fun a b => b.time ≤ a.time) →
      ∀ acc, (∀ p, acc = some p → ∀ t ∈ l, t.time ≤ p.1.time) →
      ∀ q, scan_snapshots now target l acc = some q →
        ∀ t ∈ l, t.time ≤ now → |t.time - target| = q.2 → t.time ≤ q.1.time := by
  intro l
  induction l with
  | nil =>
    intro _ acc _ q _ t ht
    cases ht
  | cons s rest ih =>
    intro hsorted acc hacc q h t ht hnow heq
    rw [List.pairwise_cons] at hsorted
    obtain ⟨hhead, htail⟩ := hsorted
    rw [scan_snapshots] at h
    have hstepdom : ∀ p, scan_step now target acc s = some p → ∀ u ∈ rest, u.time ≤ p.1.time := by
      intro p hp u hu
      cases acc with
      | none =>
        rw [scan_step_none_acc] at hp
        by_cases hs : s.time ≤ now
        · rw [if_pos hs] at hp
          cases hp
          exact hhead u hu
        · rw [if_neg hs] at hp
          cases hp
      | some p0 =>
        obtain ⟨r, hr, hcase⟩ := scan_step_some now target p0 s
        rw [hr] at hp
        cases hp
        rcases hcase with rfl | ⟨-, h1, -, -⟩
        · exact hacc _ rfl u (List.mem_cons_of_mem s hu)
        · rw [h1]
          exact hhead u hu
    rcases List.mem_cons.mp ht with rfl | ht'
    · -- the head itself ties with the final distance
      cases acc with
      | none =>
        rw [scan_step_none_acc, if_pos hnow] at h
        have hkeep := scan_snapshots_keep_of_diff_eq now target rest
          (t, |t.time - target|) q h heq.symm
        rw [hkeep]
      | some p0 =>
        rcases scan_step_eligible now target p0 t hnow with ⟨-, hstep⟩ | ⟨hge, hstep⟩
        · rw [hstep] at h
          have hkeep := scan_snapshots_keep_of_diff_eq now target rest
            (t, |t.time - target|) q h heq.symm
          rw [hkeep]
        · rw [hstep] at h
          have hfin := scan_snapshots_diff_le now target rest p0 q h
          have heq2 : q.2 = p0.2 := by omega
          have hkeep := scan_snapshots_keep_of_diff_eq now target rest p0 q h heq2
          rw [hkeep]
          exact hacc p0 rfl t (List.mem_cons_self t rest)
    · exact ih htail _ hstepdom q h t ht' hnow heq

/-- C5 (counterexample): the lookup can return nothing even though a snapshot
for the subject exists — when every stored snapshot is captured after the call
time, the loop skips them all (line 124) and `best_snapshot` stays `None`, so
"returns nothing only when no snapshot exists at all" is false. -/
theorem future_only_store_none_cex :
    find_closest [(⟨500, 3, some true, none⟩ : Snapshot)] 100 50 = none
    ∧ ([(⟨500, 3, some true, none⟩ : Snapshot)] : List Snapshot) ≠ [] :=
  ⟨rfl, by decide⟩

/-- C5 (amended): the baseline lookup never returns a snapshot captured after
the call time; any returned snapshot is a stored one minimizing the absolute
distance to the target time among the snapshots captured at or before the
call time, with ties broken in favor of the most recently captured candidate;
and it returns nothing exactly when no stored snapshot is captured at or
before the call time (in particular whenever no snapshot exists at all).
`get_baseline_snapshot`'s returned baseline is exactly this lookup at
`target = now - window`. -/
theorem baseline_lookup_best_past (store : List Snapshot) (now target : Int) :
    (find_closest store now target = none ↔ ∀ s ∈ store, ¬ s.time ≤ now)
    ∧ (∀ b, find_closest store now target = some b →
        b ∈ store ∧ b.time ≤ now
        ∧ (∀ t ∈ store, t.time ≤ now → |b.time - target| ≤ |t.time - target|)
        ∧ (∀ t ∈ store, t.time ≤ now → |t.time - target| = |b.time - target| →
            t.time ≤ b.time))
    ∧ (∀ window cf, (get_baseline_snapshot store now window cf).1
        = find_closest store now (now - window)) := by
  refine ⟨?_, ?_, ?_⟩
  · unfold find_closest
    rw [Option.map_eq_none']
    rw [scan_snapshots_eq_none]
    simp only [true_and]
    constructor
    · intro h s hs
      exact h s (mem_sort_desc.mpr hs)
    · intro h s hs
      exact h s (mem_sort_desc.mp hs)
  · intro b hb
    unfold find_closest at hb
    rw [Option.map_eq_some'] at hb
    obtain ⟨q, hq, hb⟩ := hb
    subst hb
    obtain ⟨hq2, hqnow, hqmem⟩ := scan_snapshots_wf now target store (sort_desc store)
      (fun s hs => mem_sort_desc.mp hs) none (fun p hp => by cases hp) q hq
    refine ⟨hqmem, hqnow, ?_, ?_⟩
    · intro t ht htn
      have := scan_snapshots_min now target (sort_desc store) none q hq t
        (mem_sort_desc.mpr ht) htn
      omega
    · intro t ht htn heq
      exact scan_snapshots_tie now target (sort_desc store) (pairwise_sort_desc store)
        none (fun p hp => by cases hp) q hq t (mem_sort_desc.mpr ht) htn (by omega)
  · intro window cf
    unfold get_baseline_snapshot
    cases h : find_closest store now (now - window) with
    | some s => rfl
    | none =>
      cases live_get_followers_count cf with
      | some n => by_cases hn : n = 0 <;> simp [hn]
      | none => rfl

/-! ### C9 -/

/-- C9 (confirmed): in the metadata-only path the current count that enters
the growth computation is the length of the bounded current fetch (requested
with the default `amount` of 400), not an independently fetched total; hence
growth never exceeds the number of fetched records, and with positive growth
the pipeline's candidate list is exactly the first `growth` fetched records,
so it has exactly `growth` entries. -/
theorem count_only_growth_from_fetch_length (store : List Snapshot)
    (now window now2 : Int) (cf1 cf2 : CountOutcome) (fo : FetchOutcome) (b : Snapshot)
    (hres : (get_baseline_snapshot store now window cf1).1 = some b)
    (hmeta : b.metadata_only.getD false = true) :
    live_get_followers_amount = 400
    ∧ metadata_growth b (live_get_followers fo) ≤ ((live_get_followers fo).length : Int)
    ∧ (0 < metadata_growth b (live_get_followers fo) →
        (find_recent_followers store now window cf1 now2 cf2 fo).1
          = (live_get_followers fo).take (metadata_growth b (live_get_followers fo)).toNat
        ∧ ((find_recent_followers store now window cf1 now2 cf2 fo).1).length
          = (metadata_growth b (live_get_followers fo)).toNat) := by
  refine ⟨rfl, ?_, ?_⟩
  · unfold metadata_growth
    omega
  · intro hg
    have hpipe : (find_recent_followers store now window cf1 now2 cf2 fo).1
        = delta_from_baseline b (live_get_followers fo) := by
      rcases hp : get_baseline_snapshot store now window cf1 with ⟨ob, st2⟩
      rw [hp] at hres
      simp only at hres
      subst hres
      unfold find_recent_followers
      rw [hp]
    rw [hpipe, delta_metadata_pos b _ hmeta hg]
    refine ⟨rfl, ?_⟩
    rw [List.length_take]
    unfold metadata_growth at hg ⊢
    omega

/-- C9 (witness): a one-record metadata-only baseline resolved from the store
against a two-record fetch: growth is 1 and exactly the first record comes
back. -/
theorem count_only_growth_from_fetch_length_witness :
    (find_recent_followers [count_baseline 0 1] 100 50 .netError 0 .netError
        (.ok [⟨some "x", none, none, none, none⟩, ⟨some "y", none, none, none, none⟩])).1
      = [⟨some "x", none, none, none, none⟩] := by
  have h := count_only_growth_from_fetch_length [count_baseline 0 1] 100 50 0
    .netError .netError
    (.ok [⟨some "x", none, none, none, none⟩, ⟨some "y", none, none, none, none⟩])
    (count_baseline 0 1) rfl rfl
  rw [(h.2.2 (by decide)).1]
  decide

end Rafflegram
